import Mathlib

/-!
Verification development for the image-annotator client core.

The JavaScript sources under `src/app/static/js/` and the unnamed modules
are shallowly embedded below.  Machine floats are modelled by exact
rationals; `Math.sqrt` values are passed explicitly as an argument `d`
together with the hypothesis `IsDist dx dy d` stating that `d` is the
exact nonnegative square root of `dx^2 + dy^2`.  Asynchronous `fetch`
calls are modelled by a `FetchResult` argument (network error, or a
response carrying the server status string); each event handler becomes a
pure function from its inputs and the fetch outcome to an `OpResult`
recording the annotation store, the toast messages shown, the number of
persistence calls issued, and whether a history snapshot was pushed.
-/

namespace ImageAnnotator

/-- A 2-d point with rational coordinates (image or display space). -/
structure Point where
  x : ℚ
  y : ℚ
deriving Repr, DecidableEq

/-- One annotation record, mirroring the duck-typed JS object: the union of
landmark / polygon / figure is discriminated by which optional fields are
present, exactly as in the source. -/
structure Annotation where
  type : Option String := none
  status : String := ""
  coordinates : Option Point := none
  points : Option (List Point) := none
  shape : Option String := none
  x : Option ℚ := none
  y : Option ℚ := none
  size : Option ℚ := none
  startX : Option ℚ := none
  startY : Option ℚ := none
  endX : Option ℚ := none
  endY : Option ℚ := none
  timestamp : String := ""
deriving Repr, DecidableEq

/-- `STATE.annotations`: a JS object keyed by label name, with insertion
order preserved (needed by the render pass's indexed enumeration). -/
abbrev Store := List (String × Annotation)

/-- Property access `STATE.annotations[name]`. -/
def Store.get (s : Store) (name : String) : Option Annotation :=
  match s with
  | [] => none
  | (k, v) :: rest => if k = name then some v else Store.get rest name

/-- Property assignment `STATE.annotations[name] = v`: overwrite in place if
the key exists (JS objects keep the key position), else append. -/
def Store.set (s : Store) (name : String) (v : Annotation) : Store :=
  match s with
  | [] => [(name, v)]
  | (k, w) :: rest => if k = name then (k, v) :: rest else (k, w) :: Store.set rest name v

/-- `delete STATE.annotations[name]`. -/
def Store.del (s : Store) (name : String) : Store :=
  match s with
  | [] => []
  | (k, w) :: rest => if k = name then rest else (k, w) :: Store.del rest name

/-- Outcome of one `fetch` to the persistence service: the request throws
(network error) or resolves with a JSON body whose `status` field is the
given string. -/
inductive FetchResult where
  | networkError
  | response (status : String)
deriving Repr, DecidableEq

/-- The success test `data.status === 'success'` used by every handler. -/
def FetchResult.isSuccess : FetchResult → Bool
  | .networkError => false
  | .response st => st = "success"

/-- Observable outcome of one event-handler run: the resulting store, the
toast messages raised via `showMessage` as (text, type) pairs, how many
persistence calls (`fetch`) were issued, and whether `saveToHistory` ran. -/
structure OpResult where
  store : Store
  messages : List (String × String)
  fetchCount : ℕ
  historySaved : Bool
deriving Repr, DecidableEq

/-! ## Coordinate transforms (utilities.js) -/

/-- `imageToDisplayCoords` from utilities.js, with the ambient
`STATE.currentZoom`, `STATE.translateX`, `STATE.translateY` passed
explicitly. -/
def imageToDisplayCoords (zoom tx ty : ℚ) (p : Point) : Point :=
  { x := p.x * zoom + tx, y := p.y * zoom + ty }

/-- `displayToImageCoords` from utilities.js. -/
def displayToImageCoords (zoom tx ty : ℚ) (p : Point) : Point :=
  { x := (p.x - tx) / zoom, y := (p.y - ty) / zoom }

/-- `eventToImageCoords` from utilities.js, after the event coordinates are
made container-relative: the same translate-then-divide formula. -/
def eventToImageCoords (zoom tx ty : ℚ) (containerX containerY : ℚ) : Point :=
  { x := (containerX - tx) / zoom, y := (containerY - ty) / zoom }

/-- `isWithinImageBounds` from utilities.js, with `STATE.naturalWidth` and
`STATE.naturalHeight` passed explicitly. -/
def isWithinImageBounds (nw nh : ℚ) (p : Point) : Bool :=
  0 ≤ p.x && 0 ≤ p.y && p.x < nw && p.y < nh

/-- JS `Math.round`: round half upward, `round x = ⌊x + 1/2⌋`. -/
def jsRound (q : ℚ) : ℤ :=
  ⌊q + 1 / 2⌋

/-- `d` is the exact value of `Math.sqrt(dx*dx + dy*dy)`. -/
def IsDist (dx dy d : ℚ) : Prop :=
  0 ≤ d ∧ d * d = dx * dx + dy * dy

/-! ## Landmark and label operations (annotations module, `src/unnamed/part_000`) -/

/-- `annotateLandmark(coords)`: POST action `coordinates`; only on
`data.status === 'success'` the store entry is written, a history snapshot
is pushed and a success toast shown; a thrown fetch shows an error toast;
a non-success response falls through silently. -/
def annotateLandmark (store : Store) (selectedLabel : String) (coords : Point)
    (ts : String) (resp : FetchResult) : OpResult :=
  match resp with
  | .networkError =>
      { store := store, messages := [("Failed to save annotation", "error")],
        fetchCount := 1, historySaved := false }
  | .response st =>
      if st = "success" then
        { store := store.set selectedLabel
            { status := "ok", coordinates := some coords, timestamp := ts },
          messages := [("Annotated " ++ selectedLabel, "success")],
          fetchCount := 1, historySaved := true }
      else
        { store := store, messages := [], fetchCount := 1, historySaved := false }

/-- The status string stored by `markOccluded`. -/
def occludedStatus : String := "occluded/missing"

/-- `markOccluded(name)`: POST action `occluded`; on success the entry is
replaced by a record with status `occluded/missing` and no coordinates. -/
def markOccluded (store : Store) (name : String) (ts : String)
    (resp : FetchResult) : OpResult :=
  match resp with
  | .networkError =>
      { store := store, messages := [("Failed to mark as occluded", "error")],
        fetchCount := 1, historySaved := false }
  | .response st =>
      if st = "success" then
        { store := store.set name { status := occludedStatus, timestamp := ts },
          messages := [(name ++ " marked as occluded", "success")],
          fetchCount := 1, historySaved := true }
      else
        { store := store, messages := [], fetchCount := 1, historySaved := false }

/-- `deleteAnnotation(name)` (after the user confirms): POST action
`remove`; on success the entry is deleted and a snapshot pushed. -/
def deleteAnnotation (store : Store) (name : String) (resp : FetchResult) : OpResult :=
  match resp with
  | .networkError =>
      { store := store, messages := [("Failed to delete annotation", "error")],
        fetchCount := 1, historySaved := false }
  | .response st =>
      if st = "success" then
        { store := store.del name,
          messages := [("Deleted annotation for " ++ name, "success")],
          fetchCount := 1, historySaved := true }
      else
        { store := store, messages := [], fetchCount := 1, historySaved := false }

/-! ## Polygon operations (polygons.js) -/

/-- Effect of `handlePolygonClick(coords)` on `STATE.activePolygonPoints`:
in `draw` mode the click appends a vertex; the `edit` and `move` branches
only set drag state and leave the point list unchanged. -/
def handlePolygonClick (polygonTool : String) (pts : List Point) (coords : Point) :
    List Point :=
  if polygonTool = "draw" then pts ++ [coords] else pts

/-- `completePolygon()`: fewer than 3 transient points is rejected with a
warning before any fetch; otherwise POST action `polygon` and, on success
only, the store entry is written and a snapshot pushed. -/
def completePolygon (store : Store) (selectedLabel : String) (pts : List Point)
    (ts : String) (resp : FetchResult) : OpResult :=
  if pts.length < 3 then
    { store := store, messages := [("Need at least 3 points", "warning")],
      fetchCount := 0, historySaved := false }
  else
    match resp with
    | .networkError =>
        { store := store, messages := [("Failed to save polygon", "error")],
          fetchCount := 1, historySaved := false }
    | .response st =>
        if st = "success" then
          { store := store.set selectedLabel
              { type := some ("polygon"), status := "ok", points := some pts,
                timestamp := ts },
            messages := [("Polygon saved", "success")],
            fetchCount := 1, historySaved := true }
        else
          { store := store, messages := [], fetchCount := 1, historySaved := false }

/-! ## Figure operations (figures.js and the interactions module) -/

/-- `completeFigureDrawing(coords)` for circle/rectangle: the drawn size is
`Math.round(Math.sqrt(dx*dx+dy*dy) * 2)` where `(dx,dy)` is cursor minus
center; `d` stands for the exact square root.  The minimum-size guard
compares the rounded size with 10; on success the figure entry is written. -/
def completeFigureDrawing (store : Store) (selectedLabel : String)
    (figureDrawing : Bool) (center cursor : Point) (d : ℚ) (figureShape : String)
    (ts : String) (resp : FetchResult) : OpResult :=
  if figureDrawing = false then
    { store := store, messages := [], fetchCount := 0, historySaved := false }
  else
    let size : ℤ := jsRound (d * 2)
    if size < 10 then
      { store := store, messages := [("Figure too small, draw larger", "warning")],
        fetchCount := 0, historySaved := false }
    else
      match resp with
      | .networkError =>
          { store := store, messages := [("Failed to save figure", "error")],
            fetchCount := 1, historySaved := false }
      | .response st =>
          if st = "success" then
            { store := store.set selectedLabel
                { type := some ("figure"), status := "ok", x := some center.x,
                  y := some center.y, shape := some figureShape,
                  size := some (size : ℚ), timestamp := ts },
              messages := [("Created " ++ figureShape, "success")],
              fetchCount := 1, historySaved := true }
          else
            { store := store, messages := [], fetchCount := 1, historySaved := false }

/-- `completeLineDrawing()`: the two clicked points are `p1` and `p2` and
`d` stands for the exact `Math.sqrt(dx*dx+dy*dy)`.  The minimum-length
guard compares the unrounded length with 10; the stored size is
`Math.round(length)`; center is the midpoint of the endpoints. -/
def completeLineDrawing (store : Store) (selectedLabel : String) (p1 p2 : Point)
    (d : ℚ) (ts : String) (resp : FetchResult) : OpResult :=
  if d < 10 then
    { store := store, messages := [("Line too short, draw longer", "warning")],
      fetchCount := 0, historySaved := false }
  else
    match resp with
    | .networkError =>
        { store := store, messages := [("Failed to save line", "error")],
          fetchCount := 1, historySaved := false }
    | .response st =>
        if st = "success" then
          { store := store.set selectedLabel
              { type := some ("figure"), status := "ok",
                x := some ((p1.x + p2.x) / 2), y := some ((p1.y + p2.y) / 2),
                shape := some ("line"), size := some ((jsRound d : ℤ) : ℚ),
                startX := some p1.x, startY := some p1.y,
                endX := some p2.x, endY := some p2.y, timestamp := ts },
            messages := [("Created line", "success")],
            fetchCount := 1, historySaved := true }
        else
          { store := store, messages := [], fetchCount := 1, historySaved := false }

/-- `updateFigurePosition(figureName, newX, newY)`: mutate the entry's
center in place (no-op when the entry is absent). -/
def updateFigurePosition (store : Store) (figureName : String) (newX newY : ℚ) :
    Store :=
  match store.get figureName with
  | none => store
  | some a => store.set figureName { a with x := some newX, y := some newY }

/-- `updateFigureSize(figureName, newSize)`: mutate the entry's size in
place, clamped below at 10 (no-op when the entry is absent). -/
def updateFigureSize (store : Store) (figureName : String) (newSize : ℚ) : Store :=
  match store.get figureName with
  | none => store
  | some a => store.set figureName { a with size := some (max 10 newSize) }

/-- `saveFigureUpdate(figureName, x, y, shape, size)`: POST action `update`.
It never touches the store: on success it pushes a history snapshot and a
toast; a thrown fetch shows an error toast; a non-success response falls
through silently.  The payload arguments are recorded but have no local
effect. -/
def saveFigureUpdate (store : Store) (figureName : String) (x y : ℚ)
    (shape : Option String) (size : Option ℚ) (resp : FetchResult) : OpResult :=
  match resp with
  | .networkError =>
      { store := store, messages := [("Failed to update figure", "error")],
        fetchCount := 1, historySaved := false }
  | .response st =>
      if st = "success" then
        { store := store, messages := [("Updated " ++ figureName, "success")],
          fetchCount := 1, historySaved := true }
      else
        { store := store, messages := [], fetchCount := 1, historySaved := false }

/-- The `figureDragging` branch of `handleMouseMove` for a circle or
rectangle: the entry's center is set to the cursor-derived image
coordinates on every mouse-move, before any persistence call. -/
def figureDragMove (store : Store) (selectedFigure : String) (newImageCoords : Point) :
    Store :=
  updateFigurePosition store selectedFigure newImageCoords.x newImageCoords.y

/-- The `figureDragging` branch of `handleMouseMove` for a line: both
endpoints and the center are shifted by the delta between the new image
coordinates and the drag-start originals. -/
def lineDragMove (store : Store) (selectedFigure : String)
    (originalX originalY originalStartX originalStartY originalEndX originalEndY : ℚ)
    (newImageCoords : Point) : Store :=
  match store.get selectedFigure with
  | none => store
  | some a =>
      let deltaX := newImageCoords.x - originalX
      let deltaY := newImageCoords.y - originalY
      store.set selectedFigure
        { a with startX := some (originalStartX + deltaX),
                 startY := some (originalStartY + deltaY),
                 endX := some (originalEndX + deltaX),
                 endY := some (originalEndY + deltaY),
                 x := some newImageCoords.x, y := some newImageCoords.y }

/-- Which edges a resize handle touches (`handle.includes('e')` and so on,
for the eight handle strings n/s/e/w/ne/nw/se/sw). -/
structure ResizeHandle where
  north : Bool
  south : Bool
  east : Bool
  west : Bool
deriving Repr, DecidableEq

/-- The `figureResizing` branch of `handleMouseMove`: each touched edge
contributes a signed zoom-corrected delta to the original size, and
`updateFigureSize` clamps the result below at 10. -/
def figureResizeMove (store : Store) (selectedFigure : String) (handle : ResizeHandle)
    (originalSize : ℚ) (deltaX deltaY zoom : ℚ) : Store :=
  let sizeChange :=
    (if handle.east then deltaX / zoom else 0) +
    (if handle.west then -(deltaX / zoom) else 0) +
    (if handle.south then deltaY / zoom else 0) +
    (if handle.north then -(deltaY / zoom) else 0)
  updateFigureSize store selectedFigure (originalSize + sizeChange)

/-- The `linePointDragging` branch of `handleMouseMove`: the dragged
endpoint is set to the cursor, then center is re-derived as the midpoint
and size as `Math.sqrt(dx*dx+dy*dy)`, whose exact value is `d`. -/
def linePointDragMove (store : Store) (draggedFigure : String) (draggedType : String)
    (coords : Point) (d : ℚ) : Store :=
  match store.get draggedFigure with
  | none => store
  | some a =>
      let a1 :=
        if draggedType = "start" then
          { a with startX := some coords.x, startY := some coords.y }
        else if draggedType = "end" then
          { a with endX := some coords.x, endY := some coords.y }
        else a
      store.set draggedFigure
        { a1 with x := some ((a1.startX.getD 0 + a1.endX.getD 0) / 2),
                  y := some ((a1.startY.getD 0 + a1.endY.getD 0) / 2),
                  size := some d }

/-- `moveFigureWithArrow(direction)`: step 1 by default, 10 with Shift,
0.5 with Ctrl/Cmd (Shift checked first); the stepped coordinate and the
other one are both clamped into `[0, naturalWidth] x [0, naturalHeight]`;
then exactly one `saveFigureUpdate` persistence call is issued. -/
def moveFigureWithArrow (store : Store) (selectedFigure : Option String)
    (direction : String) (shiftKey ctrlKey metaKey : Bool) (nw nh : ℚ)
    (resp : FetchResult) : OpResult :=
  match selectedFigure with
  | none => { store := store, messages := [], fetchCount := 0, historySaved := false }
  | some name =>
      match store.get name with
      | none => { store := store, messages := [], fetchCount := 0, historySaved := false }
      | some a =>
          let stepSize : ℚ := if shiftKey then 10 else if ctrlKey || metaKey then 1 / 2 else 1
          let x0 := a.x.getD 0
          let y0 := a.y.getD 0
          let newX :=
            if direction = "ArrowLeft" then x0 - stepSize
            else if direction = "ArrowRight" then x0 + stepSize else x0
          let newY :=
            if direction = "ArrowUp" then y0 - stepSize
            else if direction = "ArrowDown" then y0 + stepSize else y0
          let clampedX := max 0 (min nw newX)
          let clampedY := max 0 (min nh newY)
          let store2 := updateFigurePosition store name clampedX clampedY
          let save := saveFigureUpdate store2 name clampedX clampedY a.shape a.size resp
          { save with messages := save.messages ++ [("Moved", "info")] }

/-! ## History manager (utilities.js) -/

/-- One entry of `STATE.history`. -/
structure HistEntry where
  annotations : Store
  timestamp : String
deriving Repr, DecidableEq

/-- The slice of global STATE that the history manager touches. -/
structure EditorState where
  annotations : Store
  history : List HistEntry
  historyIndex : ℤ
deriving Repr, DecidableEq

/-- `STATE.maxHistorySize`. -/
def maxHistorySize : ℕ := 50

/-- The pristine STATE before `initializeEventListeners` runs: empty
history, `historyIndex = -1`, and whatever initial annotations the page
delivered. -/
def initEditor (s0 : Store) : EditorState :=
  { annotations := s0, history := [], historyIndex := -1 }

/-- `saveToHistory()`: truncate after the cursor, push a deep copy of the
current annotations, then either evict the oldest entry (cursor untouched)
when the cap is exceeded, or advance the cursor. -/
def saveToHistory (st : EditorState) (ts : String) : EditorState :=
  let hist :=
    if st.historyIndex < (st.history.length : ℤ) - 1 then
      st.history.take (st.historyIndex + 1).toNat
    else st.history
  let hist2 := hist ++ [{ annotations := st.annotations, timestamp := ts }]
  if hist2.length > maxHistorySize then
    { st with history := hist2.drop 1 }
  else
    { st with history := hist2, historyIndex := st.historyIndex + 1 }

/-- The entry `undo`/`redo` read when the (decremented or incremented)
cursor addresses the history list; out of range never occurs in reachable
states. -/
def histRead (st : EditorState) (i : ℤ) : Store :=
  ((st.history.getD i.toNat { annotations := [], timestamp := "" }).annotations)

/-- `undo()`: no-op unless the cursor is positive; otherwise decrement it
and replace the annotations wholesale with that snapshot. -/
def undo (st : EditorState) : EditorState :=
  if 0 < st.historyIndex then
    { st with historyIndex := st.historyIndex - 1,
              annotations := histRead st (st.historyIndex - 1) }
  else st

/-- `redo()`: no-op unless the cursor is before the last entry; otherwise
increment it and replace the annotations wholesale with that snapshot. -/
def redo (st : EditorState) : EditorState :=
  if st.historyIndex < (st.history.length : ℤ) - 1 then
    { st with historyIndex := st.historyIndex + 1,
              annotations := histRead st (st.historyIndex + 1) }
  else st

/-- One history-relevant user action: a successful mutation (the handlers
overwrite `STATE.annotations` and then call `saveToHistory`), an undo, or
a redo. -/
inductive HistOp where
  | mutOp (s : Store) (ts : String)
  | undoOp
  | redoOp

/-- Apply one history operation. -/
def applyHistOp (st : EditorState) : HistOp → EditorState
  | .mutOp s ts => saveToHistory { st with annotations := s } ts
  | .undoOp => undo st
  | .redoOp => redo st

/-- Run a sequence of history operations from left to right. -/
def runHistOps (st : EditorState) (ops : List HistOp) : EditorState :=
  ops.foldl applyHistOp st

/-- Iterated `undo`. -/
def undoN : ℕ → EditorState → EditorState
  | 0, st => st
  | n + 1, st => undoN n (undo st)

/-! ## Zoom and view (zoom.js) -/

/-- The zoom/pan slice of STATE.  `STATE.maxZoom = 1000` and the initial
zoom is 1. -/
structure ViewState where
  currentZoom : ℚ
  translateX : ℚ
  translateY : ℚ
deriving Repr, DecidableEq

/-- `STATE.maxZoom`. -/
def maxZoom : ℚ := 1000

/-- The initial view state from the STATE literal. -/
def initView : ViewState :=
  { currentZoom := 1, translateX := 0, translateY := 0 }

/-- `zoomIn()`: multiply by 1.5, capped at `maxZoom`, guarded by
`currentZoom < maxZoom`. -/
def zoomIn (v : ViewState) : ViewState :=
  if v.currentZoom < maxZoom then
    { v with currentZoom := min maxZoom (v.currentZoom * (3 / 2)) }
  else v

/-- `zoomOut()`: divide by 1.5, floored at 0.1, guarded by
`currentZoom > 0.1`. -/
def zoomOut (v : ViewState) : ViewState :=
  if 1 / 10 < v.currentZoom then
    { v with currentZoom := max (1 / 10) (v.currentZoom / (3 / 2)) }
  else v

/-- `handleWheel(e)`: scale by 0.8 or 1.25 according to the wheel
direction, clamped into `[0.1, maxZoom]`, then re-anchor the pan offsets
so the zoom is centered on the mouse position. -/
def handleWheel (v : ViewState) (deltaYPositive : Bool) (mouseX mouseY : ℚ) :
    ViewState :=
  let delta : ℚ := if deltaYPositive then 4 / 5 else 5 / 4
  let oldZoom := v.currentZoom
  let newZoom := min maxZoom (max (1 / 10) (v.currentZoom * delta))
  let mouseRelX := (mouseX - v.translateX) / oldZoom
  let mouseRelY := (mouseY - v.translateY) / oldZoom
  { currentZoom := newZoom,
    translateX := mouseX - mouseRelX * newZoom,
    translateY := mouseY - mouseRelY * newZoom }

/-- `resetView()`: zoom back to 1 and center the image in the container
when it is smaller than the container. -/
def resetView (v : ViewState) (containerW containerH nw nh : ℚ) : ViewState :=
  let z : ℚ := 1
  let scaledW := nw * z
  let scaledH := nh * z
  { currentZoom := z,
    translateX := if scaledW < containerW then (containerW - scaledW) / 2 else 0,
    translateY := if scaledH < containerH then (containerH - scaledH) / 2 else 0 }

/-- One view operation with its event parameters. -/
inductive ViewOp where
  | zin
  | zout
  | wheel (deltaYPositive : Bool) (mouseX mouseY : ℚ)
  | reset (containerW containerH nw nh : ℚ)

/-- Apply one view operation. -/
def applyViewOp (v : ViewState) : ViewOp → ViewState
  | .zin => zoomIn v
  | .zout => zoomOut v
  | .wheel d mx my => handleWheel v d mx my
  | .reset cw ch nw nh => resetView v cw ch nw nh

/-- Run a sequence of view operations from left to right. -/
def runViewOps (v : ViewState) (ops : List ViewOp) : ViewState :=
  ops.foldl applyViewOp v

/-! ## Render pass (rendering.js) -/

/-- The COLORS palette from the state module (12 entries). -/
def COLORS : List String :=
  ["#ff0000", "#00ff00", "#0000ff", "#ffff00",
   "#ff00ff", "#00ffff", "#ff8000", "#8000ff",
   "#ff0080", "#80ff00", "#0080ff", "#8000ff"]

/-- Lookup in `STATE.visibilityToggles`; an absent key reads as
`undefined`, which is not `=== false`. -/
def visLookup (vis : List (String × Bool)) (name : String) : Option Bool :=
  match vis with
  | [] => none
  | (k, b) :: rest => if k = name then some b else visLookup rest name

/-- Whether the per-annotation branch of `renderAnnotations` produces a
visual node: a polygon with a present point list of length at least 3
(`renderPolygonShape` drops shorter ones), any figure, or an `ok` landmark
with coordinates inside the image bounds (`renderLandmarkPoint` drops
out-of-bounds ones). -/
def rendersNode (nw nh : ℚ) (a : Annotation) : Bool :=
  if a.type = some ("polygon") && a.points.isSome then
    decide (3 ≤ (a.points.getD []).length)
  else if a.type = some ("figure") then true
  else if a.status = "ok" && a.coordinates.isSome then
    isWithinImageBounds nw nh (a.coordinates.getD { x := 0, y := 0 })
  else false

/-- The indexed `Object.entries(...).forEach` loop of `renderAnnotations`:
every store entry consumes one palette index `i` (hidden or non-rendering
entries included), and an entry that passes the visibility gate and
produces a node is colored `COLORS[i % COLORS.length]`. -/
def renderFrom (nw nh : ℚ) (vis : List (String × Bool)) : ℕ → Store → List (String × String)
  | _, [] => []
  | i, (name, a) :: rest =>
      let tail := renderFrom nw nh vis (i + 1) rest
      if visLookup vis name = some false then tail
      else if rendersNode nw nh a then
        (name, COLORS.getD (i % COLORS.length) "") :: tail
      else tail

/-- `renderAnnotations()` reduced to its observable scene: the list of
rendered (label, color) nodes in store order. -/
def renderAnnotations (nw nh : ℚ) (vis : List (String × Bool)) (anns : Store) :
    List (String × String) :=
  renderFrom nw nh vis 0 anns

/-! ## Invariants and example states used by the theorems -/

/-- Default entry used for (unreachable) out-of-range history reads. -/
def histDefault : HistEntry := { annotations := [], timestamp := "" }

/-- The editor-state invariant reestablished after every history
operation once the initial snapshot exists: the history is capped, the
cursor addresses a valid entry, and the live annotations equal the
snapshot under the cursor. -/
def HistInv (st : EditorState) : Prop :=
  st.history.length ≤ maxHistorySize ∧
  0 ≤ st.historyIndex ∧
  st.historyIndex ≤ (st.history.length : ℤ) - 1 ∧
  st.annotations = (st.history.getD st.historyIndex.toNat histDefault).annotations

/-- The weaker shape invariant that already holds for the pristine state
(`historyIndex = -1`, empty history) and suffices for `saveToHistory` to
establish `HistInv`. -/
def HistPre (st : EditorState) : Prop :=
  st.history.length ≤ maxHistorySize ∧
  -1 ≤ st.historyIndex ∧
  st.historyIndex ≤ (st.history.length : ℤ) - 1

/-- The zoom bound maintained by every view operation. -/
def zoomInvariant (v : ViewState) : Prop :=
  1 / 10 ≤ v.currentZoom ∧ v.currentZoom ≤ maxZoom

/-- Pre-gesture store for the commit-atomicity counterexample: one circle
figure centered at (5,5). -/
def c1Before : Store :=
  [(("F"), { type := some ("figure"), status := "ok", x := some 5, y := some 5,
             shape := some ("circle"), size := some 50, timestamp := "t0" })]

/-- Example store for the arrow-nudge witness: one circle at (50,60). -/
def c8Store : Store :=
  [(("G"), { type := some ("figure"), status := "ok", x := some 50, y := some 60,
             shape := some ("circle"), size := some 20, timestamp := "t0" })]

/-- The annotation record of `c8Store`. -/
def c8Entry : Annotation :=
  { type := some ("figure"), status := "ok", x := some 50, y := some 60,
    shape := some ("circle"), size := some 20, timestamp := "t0" }

/-- The line invariant of the spec: the center is the midpoint of the
endpoints and the size is the endpoint distance `d`. -/
def LineInvariant (a : Annotation) (d : ℚ) : Prop :=
  a.x = some ((a.startX.getD 0 + a.endX.getD 0) / 2) ∧
  a.y = some ((a.startY.getD 0 + a.endY.getD 0) / 2) ∧
  a.size = some d

/-- Line record after the C4 creation: endpoints (0,0) and (20,0). -/
def c4Entry1 : Annotation :=
  { type := some ("figure"), status := "ok", x := some 10, y := some 0,
    shape := some ("line"), size := some 20, startX := some 0, startY := some 0,
    endX := some 20, endY := some 0, timestamp := "t" }

/-- Line record after the C4 endpoint drag: end moved to (30,0). -/
def c4Entry2 : Annotation :=
  { type := some ("figure"), status := "ok", x := some 15, y := some 0,
    shape := some ("line"), size := some 30, startX := some 0, startY := some 0,
    endX := some 30, endY := some 0, timestamp := "t" }

/-- Line record after the C4 arrow nudge: only the center moved. -/
def c4Entry3 : Annotation :=
  { type := some ("figure"), status := "ok", x := some 16, y := some 0,
    shape := some ("line"), size := some 30, startX := some 0, startY := some 0,
    endX := some 30, endY := some 0, timestamp := "t" }

/-! ## Helper lemmas -/

theorem store_get_set (s : Store) (name : String) (v : Annotation) :
    Store.get (Store.set s name v) name = some v := by
  induction s with
  | nil => simp [Store.set, Store.get]
  | cons hd tl ih =>
      obtain ⟨k, w⟩ := hd
      by_cases h : k = name <;> simp [Store.set, Store.get, h, ih]

theorem store_get_set_ne (s : Store) (name other : String) (v : Annotation)
    (h : other ≠ name) : Store.get (Store.set s name v) other = Store.get s other := by
  induction s with
  | nil => simp [Store.set, Store.get, Ne.symm h]
  | cons hd tl ih =>
      obtain ⟨k, w⟩ := hd
      by_cases hk : k = name
      · subst hk
        simp [Store.set, Store.get, Ne.symm h]
      · simp [Store.set, Store.get, hk, ih]

theorem saveFigureUpdate_store (s : Store) (n : String) (x y : ℚ)
    (sh : Option String) (sz : Option ℚ) (resp : FetchResult) :
    (saveFigureUpdate s n x y sh sz resp).store = s := by
  unfold saveFigureUpdate
  cases resp with
  | networkError => rfl
  | response st => by_cases h : st = "success" <;> simp [h]

theorem saveFigureUpdate_fetchCount (s : Store) (n : String) (x y : ℚ)
    (sh : Option String) (sz : Option ℚ) (resp : FetchResult) :
    (saveFigureUpdate s n x y sh sz resp).fetchCount = 1 := by
  unfold saveFigureUpdate
  cases resp with
  | networkError => rfl
  | response st => by_cases h : st = "success" <;> simp [h]

theorem roundtrip_of_zoom_ne (zoom tx ty : ℚ) (p : Point) (hz : zoom ≠ 0) :
    displayToImageCoords zoom tx ty (imageToDisplayCoords zoom tx ty p) = p := by
  obtain ⟨px, py⟩ := p
  simp only [displayToImageCoords, imageToDisplayCoords, Point.mk.injEq]
  constructor <;> (rw [add_sub_cancel_right]; exact mul_div_cancel_right₀ _ hz)

/-! ## C2: coordinate round-trip -/

/-- C2: for every image-space point p, every zoom > 0 and any pan offsets
translateX, translateY, `displayToImageCoords (imageToDisplayCoords p)`
equals `p` exactly over the rationals. -/
theorem C2_coord_roundtrip (zoom tx ty : ℚ) (p : Point) (hz : 0 < zoom) :
    displayToImageCoords zoom tx ty (imageToDisplayCoords zoom tx ty p) = p :=
  roundtrip_of_zoom_ne zoom tx ty p (ne_of_gt hz)

/-- Witness for C2 at zoom 2, pan (3,5), point (7,11). -/
theorem C2_coord_roundtrip_witness :
    (0 : ℚ) < 2 ∧
    displayToImageCoords 2 3 5 (imageToDisplayCoords 2 3 5 { x := 7, y := 11 }) =
      { x := 7, y := 11 } :=
  ⟨by norm_num, C2_coord_roundtrip 2 3 5 { x := 7, y := 11 } (by norm_num)⟩

/-! ## C6: occluded landmark entries -/

/-- C6: a successful occluded action stores the occluded record with no
coordinates field; a successful landmark write stores status ok with
coordinates present, so coordinates are present exactly when the status
is ok among these entries. -/
theorem C6_occluded_entry (store : Store) (name : String) (ts : String) :
    (Store.get (markOccluded store name ts (FetchResult.response ("success"))).store name =
      some { status := occludedStatus, coordinates := none, timestamp := ts }) ∧
    (∀ a, Store.get (markOccluded store name ts (FetchResult.response ("success"))).store name =
        some a → a.coordinates = none ∧ a.status ≠ "ok") ∧
    (∀ coords, Store.get (annotateLandmark store name coords ts
        (FetchResult.response ("success"))).store name =
      some { status := "ok", coordinates := some coords, timestamp := ts }) := by
  have h1 : Store.get (markOccluded store name ts (FetchResult.response ("success"))).store name =
      some { status := occludedStatus, coordinates := none, timestamp := ts } := by
    simp [markOccluded, store_get_set]
  refine ⟨h1, ?_, ?_⟩
  · intro a ha
    rw [h1] at ha
    obtain rfl : ({ status := occludedStatus, coordinates := none, timestamp := ts } : Annotation) = a :=
      Option.some_injective _ ha
    exact ⟨rfl, by simp [occludedStatus]⟩
  · intro coords
    simp [annotateLandmark, store_get_set]

/-! ## C5: polygon completion minimum -/

/-- C5: completing with the two clicked points is rejected with a warning,
no fetch and an unchanged store; completing with the three clicked points
on server success stores exactly those points in click order. -/
theorem C5_polygon_minimum (store : Store) (label : String) (a b c : Point)
    (ts : String) (resp : FetchResult) (hsucc : resp.isSuccess = true) :
    (handlePolygonClick ("draw")
        (handlePolygonClick ("draw") (handlePolygonClick ("draw") [] a) b) c = [a, b, c]) ∧
    (∀ resp2,
      (completePolygon store label
          (handlePolygonClick ("draw") (handlePolygonClick ("draw") [] a) b) ts resp2).store
        = store ∧
      (completePolygon store label
          (handlePolygonClick ("draw") (handlePolygonClick ("draw") [] a) b) ts resp2).fetchCount
        = 0 ∧
      (completePolygon store label
          (handlePolygonClick ("draw") (handlePolygonClick ("draw") [] a) b) ts resp2).messages
        = [("Need at least 3 points", "warning")]) ∧
    (Store.get (completePolygon store label [a, b, c] ts resp).store label =
      some { type := some ("polygon"), status := "ok", points := some [a, b, c],
             timestamp := ts } ∧
     [a, b, c].length = 3) := by
  obtain ⟨st, rfl, hst⟩ : ∃ st, resp = FetchResult.response st ∧ st = "success" := by
    cases resp with
    | networkError => simp [FetchResult.isSuccess] at hsucc
    | response st => exact ⟨st, rfl, by simpa [FetchResult.isSuccess] using hsucc⟩
  subst hst
  refine ⟨by simp [handlePolygonClick], ?_, ?_⟩
  · intro resp2
    simp [handlePolygonClick, completePolygon]
  · constructor
    · simp [completePolygon, store_get_set]
    · rfl

/-- Witness for C5: the spec's own scenario, clicks (10,10),(50,10),(50,50)
against a successful server response. -/
theorem C5_polygon_minimum_witness :
    Store.get (completePolygon []
        ("P") [{ x := 10, y := 10 }, { x := 50, y := 10 }, { x := 50, y := 50 }]
        ("t") (FetchResult.response ("success"))).store ("P") =
      some { type := some ("polygon"), status := "ok",
             points := some [{ x := 10, y := 10 }, { x := 50, y := 10 }, { x := 50, y := 50 }],
             timestamp := "t" } :=
  ((C5_polygon_minimum [] ("P") { x := 10, y := 10 } { x := 50, y := 10 } { x := 50, y := 50 }
      ("t") (FetchResult.response ("success")) (by decide)).2.2).1

/-! ## C7: circle/rectangle minimum-size gate -/

/-- C7 counterexample: with the center at (0,0) and the cursor at
(4.8, 0) the distance is 4.8, so 2*distance = 9.6 is below 10 and the
claim requires an abort; the code rounds the size to 10, issues the
persistence call and, on success, writes the figure into the store. -/
theorem C7_counterexample :
    IsDist (24 / 5 - 0) (0 - 0) (24 / 5) ∧
    (2 : ℚ) * (24 / 5) < 10 ∧
    (completeFigureDrawing [] ("F") true { x := 0, y := 0 } { x := 24 / 5, y := 0 }
        (24 / 5) ("circle") ("t") (FetchResult.response ("success"))).fetchCount = 1 ∧
    Store.get (completeFigureDrawing [] ("F") true { x := 0, y := 0 } { x := 24 / 5, y := 0 }
        (24 / 5) ("circle") ("t") (FetchResult.response ("success"))).store ("F") =
      some { type := some ("figure"), status := "ok", x := some 0, y := some 0,
             shape := some ("circle"), size := some 10, timestamp := "t" } := by
  have h10 : jsRound ((24 : ℚ) / 5 * 2) = 10 := by norm_num [jsRound]
  refine ⟨⟨by norm_num, by norm_num⟩, by norm_num, ?_, ?_⟩ <;>
    simp [completeFigureDrawing, h10, Store.set, Store.get]

/-- C7 amended: pointer-up finalizes (one persistence call and, on server
success, the figure written with the rounded size) iff
`Math.round(2*distance) >= 10`, equivalently `2*distance >= 9.5`; below
that the gesture aborts with the too-small notice, no persistence call
and an unchanged store. -/
theorem C7_min_size_gate (store : Store) (label : String) (center cursor : Point)
    (d : ℚ) (shape ts : String) (resp : FetchResult)
    (hd : IsDist (cursor.x - center.x) (cursor.y - center.y) d) :
    (jsRound (d * 2) < 10 →
      (completeFigureDrawing store label true center cursor d shape ts resp).store = store ∧
      (completeFigureDrawing store label true center cursor d shape ts resp).fetchCount = 0 ∧
      (completeFigureDrawing store label true center cursor d shape ts resp).messages =
        [("Figure too small, draw larger", "warning")]) ∧
    (10 ≤ jsRound (d * 2) →
      (completeFigureDrawing store label true center cursor d shape ts resp).fetchCount = 1 ∧
      (resp.isSuccess = true →
        Store.get (completeFigureDrawing store label true center cursor d shape ts resp).store
            label =
          some { type := some ("figure"), status := "ok", x := some center.x,
                 y := some center.y, shape := some shape,
                 size := some ((jsRound (d * 2) : ℤ) : ℚ), timestamp := ts })) ∧
    (jsRound (d * 2) < 10 ↔ d * 2 < 19 / 2) := by
  refine ⟨?_, ?_, ?_⟩
  · intro hlt
    simp [completeFigureDrawing, hlt]
  · intro hge
    have hlt : ¬ jsRound (d * 2) < 10 := not_lt.mpr hge
    constructor
    · cases resp with
      | networkError => simp [completeFigureDrawing, hlt]
      | response st =>
          by_cases h : st = "success" <;> simp [completeFigureDrawing, hlt, h]
    · intro hsucc
      obtain ⟨st, rfl, hst⟩ : ∃ st, resp = FetchResult.response st ∧ st = "success" := by
        cases resp with
        | networkError => simp [FetchResult.isSuccess] at hsucc
        | response st => exact ⟨st, rfl, by simpa [FetchResult.isSuccess] using hsucc⟩
      subst hst
      simp [completeFigureDrawing, hlt, store_get_set]
  · unfold jsRound
    rw [Int.floor_lt]
    push_cast
    constructor <;> intro h <;> linarith

/-- Witness for C7: center (0,0), cursor (6,8), exact distance 10, server
success: the gate finalizes and writes size 20. -/
theorem C7_min_size_gate_witness :
    IsDist (6 - 0) (8 - 0) 10 ∧
    (10 : ℤ) ≤ jsRound ((10 : ℚ) * 2) ∧
    Store.get (completeFigureDrawing [] ("F") true { x := 0, y := 0 } { x := 6, y := 8 }
        10 ("circle") ("t") (FetchResult.response ("success"))).store ("F") =
      some { type := some ("figure"), status := "ok", x := some 0, y := some 0,
             shape := some ("circle"), size := some ((jsRound ((10 : ℚ) * 2) : ℤ) : ℚ),
             timestamp := "t" } :=
  ⟨by constructor <;> norm_num, by norm_num [jsRound],
    ((C7_min_size_gate [] ("F") { x := 0, y := 0 } { x := 6, y := 8 } 10 ("circle") ("t")
        (FetchResult.response ("success"))
        (by constructor <;> norm_num)).2.1 (by norm_num [jsRound])).2 (by decide)⟩

/-! ## C1: commit atomicity -/

theorem annotateLandmark_fail (store : Store) (label : String) (coords : Point)
    (ts : String) (resp : FetchResult) (hfail : resp.isSuccess = false) :
    (annotateLandmark store label coords ts resp).store = store ∧
    (annotateLandmark store label coords ts resp).historySaved = false := by
  cases resp with
  | networkError => exact ⟨rfl, rfl⟩
  | response st =>
      have h : ¬ st = "success" := by simpa [FetchResult.isSuccess] using hfail
      simp [annotateLandmark, h]

theorem markOccluded_fail (store : Store) (name ts : String) (resp : FetchResult)
    (hfail : resp.isSuccess = false) :
    (markOccluded store name ts resp).store = store ∧
    (markOccluded store name ts resp).historySaved = false := by
  cases resp with
  | networkError => exact ⟨rfl, rfl⟩
  | response st =>
      have h : ¬ st = "success" := by simpa [FetchResult.isSuccess] using hfail
      simp [markOccluded, h]

theorem deleteAnnotation_fail (store : Store) (name : String) (resp : FetchResult)
    (hfail : resp.isSuccess = false) :
    ( deleteAnnotation store name resp).store = store ∧
    ( deleteAnnotation store name resp).historySaved = false := by
  cases resp with
  | networkError => exact ⟨rfl, rfl⟩
  | response st =>
      have h : ¬ st = "success" := by simpa [FetchResult.isSuccess] using hfail
      simp [ deleteAnnotation, h]

theorem completePolygon_fail (store : Store) (label : String) (pts : List Point)
    (ts : String) (resp : FetchResult) (hfail : resp.isSuccess = false) :
    (completePolygon store label pts ts resp).store = store ∧
    (completePolygon store label pts ts resp).historySaved = false := by
  unfold completePolygon
  split
  · exact ⟨rfl, rfl⟩
  · cases resp with
    | networkError => exact ⟨rfl, rfl⟩
    | response st =>
        have h : ¬ st = "success" := by simpa [FetchResult.isSuccess] using hfail
        simp [h]

theorem completeFigureDrawing_fail (store : Store) (label : String)
    (center cursor : Point) (d : ℚ) (shape ts : String) (resp : FetchResult)
    (hfail : resp.isSuccess = false) :
    (completeFigureDrawing store label true center cursor d shape ts resp).store = store ∧
    (completeFigureDrawing store label true center cursor d shape ts resp).historySaved
      = false := by
  unfold completeFigureDrawing
  simp only [Bool.true_eq_false, if_false]
  split
  · exact ⟨rfl, rfl⟩
  · cases resp with
    | networkError => exact ⟨rfl, rfl⟩
    | response st =>
        have h : ¬ st = "success" := by simpa [FetchResult.isSuccess] using hfail
        simp [h]

theorem completeLineDrawing_fail (store : Store) (label : String) (p1 p2 : Point)
    (d : ℚ) (ts : String) (resp : FetchResult) (hfail : resp.isSuccess = false) :
    (completeLineDrawing store label p1 p2 d ts resp).store = store ∧
    (completeLineDrawing store label p1 p2 d ts resp).historySaved = false := by
  unfold completeLineDrawing
  split
  · exact ⟨rfl, rfl⟩
  · cases resp with
    | networkError => exact ⟨rfl, rfl⟩
    | response st =>
        have h : ¬ st = "success" := by simpa [FetchResult.isSuccess] using hfail
        simp [h]

/-- C1 amended: gestures whose store write sits in the fetch-success branch
(landmark annotate, mark occluded, delete, polygon completion,
circle/rectangle creation, line creation) leave the store unmodified and
push no history snapshot when the persistence call fails; a network error
raises an error toast while a non-success status shows nothing.  Figure
drag-to-move (and drag-resize) gestures instead mutate the store during
the drag, and a failing completion call `saveFigureUpdate` keeps the
dragged store rather than restoring the pre-gesture one. -/
theorem C1_commit_atomicity (store : Store) (label name : String)
    (coords p1 p2 center cursor newCoords : Point) (pts : List Point) (d : ℚ)
    (shape ts : String) (resp : FetchResult) (hfail : resp.isSuccess = false) :
    (annotateLandmark store label coords ts resp).store = store ∧
    (markOccluded store name ts resp).store = store ∧
    ( deleteAnnotation store name resp).store = store ∧
    (completePolygon store label pts ts resp).store = store ∧
    (completeFigureDrawing store label true center cursor d shape ts resp).store = store ∧
    (completeLineDrawing store label p1 p2 d ts resp).store = store ∧
    (annotateLandmark store label coords ts resp).historySaved = false ∧
    (resp = FetchResult.networkError →
      (annotateLandmark store label coords ts resp).messages =
        [("Failed to save annotation", "error")] ∧
      (saveFigureUpdate (figureDragMove store name newCoords) name newCoords.x newCoords.y
          (some shape) (some d) resp).messages = [("Failed to update figure", "error")]) ∧
    (saveFigureUpdate (figureDragMove store name newCoords) name newCoords.x newCoords.y
        (some shape) (some d) resp).store = figureDragMove store name newCoords ∧
    (saveFigureUpdate (figureDragMove store name newCoords) name newCoords.x newCoords.y
        (some shape) (some d) resp).historySaved = false := by
  refine ⟨(annotateLandmark_fail store label coords ts resp hfail).1,
          (markOccluded_fail store name ts resp hfail).1,
          (deleteAnnotation_fail store name resp hfail).1,
          (completePolygon_fail store label pts ts resp hfail).1,
          (completeFigureDrawing_fail store label center cursor d shape ts resp hfail).1,
          (completeLineDrawing_fail store label p1 p2 d ts resp hfail).1,
          (annotateLandmark_fail store label coords ts resp hfail).2,
          ?_, saveFigureUpdate_store _ _ _ _ _ _ _, ?_⟩
  · intro hnet
    subst hnet
    exact ⟨rfl, rfl⟩
  · cases resp with
    | networkError => rfl
    | response st =>
        have h : ¬ st = "success" := by simpa [FetchResult.isSuccess] using hfail
        simp [saveFigureUpdate, h]

/-- Witness for C1 at a network error on an empty store. -/
theorem C1_commit_atomicity_witness :
    (annotateLandmark [] ("L") { x := 1, y := 2 } ("t") FetchResult.networkError).store = [] :=
  (C1_commit_atomicity [] ("L") ("F") { x := 1, y := 2 } { x := 0, y := 0 }
    { x := 1, y := 0 } { x := 0, y := 0 } { x := 1, y := 1 } { x := 3, y := 4 } [] 5
    ("circle") ("t") FetchResult.networkError (by decide)).1

/-- C1 counterexample: a drag-to-move gesture has already mutated the store
during mouse-move; when the completion call returns a non-success status
the store keeps the dragged center (different from the pre-gesture one)
and no user-visible message is raised. -/
theorem C1_counterexample :
    (FetchResult.response ("error")).isSuccess = false ∧
    Store.get (saveFigureUpdate (figureDragMove c1Before ("F") { x := 20, y := 20 }) ("F")
        20 20 (some ("circle")) (some 50) (FetchResult.response ("error"))).store ("F") ≠
      Store.get c1Before ("F") ∧
    (saveFigureUpdate (figureDragMove c1Before ("F") { x := 20, y := 20 }) ("F")
        20 20 (some ("circle")) (some 50) (FetchResult.response ("error"))).messages = [] := by
  refine ⟨by decide, ?_, ?_⟩
  · simp [saveFigureUpdate, figureDragMove, updateFigurePosition, c1Before,
      Store.get, Store.set]
  · simp [saveFigureUpdate, figureDragMove]

/-! ## C4: line midpoint/length invariant -/

/-- C4: evaluated at concrete inputs: line creation (endpoints (0,0) and
(20,0), distance 20) stores the exact midpoint and distance; an endpoint
drag to (30,0) (distance 30) re-derives both exactly; but an arrow nudge
on the same selected line moves only the center x to 16, leaving the
endpoints at 0 and 30 whose midpoint is 15, while the persistence call
still succeeds — the kept record violates the line invariant. -/
theorem C4_line_invariant_check :
    (IsDist (20 - 0) (0 - 0) 20 ∧
     (completeLineDrawing [] ("L") { x := 0, y := 0 } { x := 20, y := 0 } 20 ("t")
        (FetchResult.response ("success"))).store = [(("L"), c4Entry1)] ∧
     LineInvariant c4Entry1 20) ∧
    (IsDist (30 - 0) (0 - 0) 30 ∧
     linePointDragMove [(("L"), c4Entry1)] ("L") ("end") { x := 30, y := 0 } 30 =
       [(("L"), c4Entry2)] ∧
     LineInvariant c4Entry2 30) ∧
    ((moveFigureWithArrow [(("L"), c4Entry2)] (some ("L")) ("ArrowRight") false false false
        100 100 (FetchResult.response ("success"))).fetchCount = 1 ∧
     (moveFigureWithArrow [(("L"), c4Entry2)] (some ("L")) ("ArrowRight") false false false
        100 100 (FetchResult.response ("success"))).historySaved = true ∧
     (moveFigureWithArrow [(("L"), c4Entry2)] (some ("L")) ("ArrowRight") false false false
        100 100 (FetchResult.response ("success"))).store = [(("L"), c4Entry3)] ∧
     c4Entry3.startX = c4Entry2.startX ∧ c4Entry3.endX = c4Entry2.endX ∧
     c4Entry3.x ≠ some ((c4Entry3.startX.getD 0 + c4Entry3.endX.getD 0) / 2)) := by
  have hround : jsRound (20 : ℚ) = 20 := by norm_num [jsRound]
  refine ⟨⟨⟨by norm_num, by norm_num⟩, ?_, ?_⟩, ⟨⟨by norm_num, by norm_num⟩, ?_, ?_⟩,
          ?_, ?_, ?_, rfl, rfl, ?_⟩
  · simp [completeLineDrawing, hround, Store.set, c4Entry1]
    norm_num
  · refine ⟨?_, ?_, ?_⟩ <;> simp [LineInvariant, c4Entry1] <;> norm_num
  · simp [linePointDragMove, Store.get, Store.set, c4Entry1, c4Entry2]
    norm_num
  · refine ⟨?_, ?_, ?_⟩ <;> simp [LineInvariant, c4Entry2] <;> norm_num
  · simp [moveFigureWithArrow, Store.get, c4Entry2, saveFigureUpdate]
  · simp [moveFigureWithArrow, Store.get, c4Entry2, saveFigureUpdate]
  · simp [moveFigureWithArrow, Store.get, Store.set, updateFigurePosition,
      saveFigureUpdate, c4Entry2, c4Entry3, min_def, max_def]
    norm_num
  · simp [c4Entry3]
    norm_num

/-! ## C8: arrow-key nudge -/

/-- C8: an arrow nudge on a selected figure with entry `a` moves the center
by the modifier-selected step along the arrow's axis, clamps the result
into `[0, naturalWidth] x [0, naturalHeight]`, and issues exactly one
persistence call per key press. -/
theorem C8_arrow_nudge (store : Store) (name : String) (a : Annotation)
    (x y : ℚ) (shiftKey ctrlKey metaKey : Bool) (nw nh : ℚ) (resp : FetchResult)
    (hget : Store.get store name = some a) (hx : a.x = some x) (hy : a.y = some y) :
    let step : ℚ := if shiftKey then 10 else if ctrlKey || metaKey then 1 / 2 else 1
    (Store.get (moveFigureWithArrow store (some name) ("ArrowRight") shiftKey ctrlKey metaKey
        nw nh resp).store name =
      some { a with x := some (max 0 (min nw (x + step))), y := some (max 0 (min nh y)) }) ∧
    (Store.get (moveFigureWithArrow store (some name) ("ArrowLeft") shiftKey ctrlKey metaKey
        nw nh resp).store name =
      some { a with x := some (max 0 (min nw (x - step))), y := some (max 0 (min nh y)) }) ∧
    (Store.get (moveFigureWithArrow store (some name) ("ArrowUp") shiftKey ctrlKey metaKey
        nw nh resp).store name =
      some { a with x := some (max 0 (min nw x)), y := some (max 0 (min nh (y - step))) }) ∧
    (Store.get (moveFigureWithArrow store (some name) ("ArrowDown") shiftKey ctrlKey metaKey
        nw nh resp).store name =
      some { a with x := some (max 0 (min nw x)), y := some (max 0 (min nh (y + step))) }) ∧
    (moveFigureWithArrow store (some name) ("ArrowRight") shiftKey ctrlKey metaKey
        nw nh resp).fetchCount = 1 ∧
    (moveFigureWithArrow store (some name) ("ArrowLeft") shiftKey ctrlKey metaKey
        nw nh resp).fetchCount = 1 ∧
    (moveFigureWithArrow store (some name) ("ArrowUp") shiftKey ctrlKey metaKey
        nw nh resp).fetchCount = 1 ∧
    (moveFigureWithArrow store (some name) ("ArrowDown") shiftKey ctrlKey metaKey
        nw nh resp).fetchCount = 1 ∧
    (shiftKey = true → step = 10) ∧
    (shiftKey = false → (ctrlKey || metaKey) = true → step = 1 / 2) ∧
    (shiftKey = false → (ctrlKey || metaKey) = false → step = 1) := by
  refine ⟨?_, ?_, ?_, ?_, ?_, ?_, ?_, ?_, ?_, ?_, ?_⟩
  · simp [moveFigureWithArrow, hget, hx, hy, updateFigurePosition,
      saveFigureUpdate_store, store_get_set]
  · simp [moveFigureWithArrow, hget, hx, hy, updateFigurePosition,
      saveFigureUpdate_store, store_get_set]
  · simp [moveFigureWithArrow, hget, hx, hy, updateFigurePosition,
      saveFigureUpdate_store, store_get_set]
  · simp [moveFigureWithArrow, hget, hx, hy, updateFigurePosition,
      saveFigureUpdate_store, store_get_set]
  · simp [moveFigureWithArrow, hget, saveFigureUpdate_fetchCount]
  · simp [moveFigureWithArrow, hget, saveFigureUpdate_fetchCount]
  · simp [moveFigureWithArrow, hget, saveFigureUpdate_fetchCount]
  · simp [moveFigureWithArrow, hget, saveFigureUpdate_fetchCount]
  · intro h
    simp [h]
  · intro h1 h2
    simp [h1, h2]
  · intro h1 h2
    simp [h1, h2]

/-- Witness for C8: a default (no-modifier) ArrowRight nudge on the circle
at (50,60) inside a 100 x 100 image moves the center to (51,60). -/
theorem C8_arrow_nudge_witness :
    Store.get (moveFigureWithArrow c8Store (some ("G")) ("ArrowRight") false false false
        100 100 (FetchResult.response ("success"))).store ("G") =
      some { c8Entry with x := some 51, y := some 60 } := by
  have h := (C8_arrow_nudge c8Store ("G") c8Entry 50 60 false false false 100 100
      (FetchResult.response ("success")) (by rfl) (by rfl) (by rfl)).1
  norm_num [min_def, max_def] at h
  exact h

/-! ## C3: history manager bounds -/

theorem getD_append_last (l : List HistEntry) (e : HistEntry) :
    (l ++ [e]).getD l.length histDefault = e := by
  simp [List.getD_eq_getElem?_getD]

theorem getD_drop_one (l : List HistEntry) (n : ℕ) :
    (l.drop 1).getD n histDefault = l.getD (n + 1) histDefault := by
  simp [List.getD_eq_getElem?_getD, List.getElem?_drop, Nat.add_comm]

theorem saveToHistory_spec (st : EditorState) (ts : String) (h : HistPre st) :
    HistInv (saveToHistory st ts) ∧
    (saveToHistory st ts).historyIndex =
      ((saveToHistory st ts).history.length : ℤ) - 1 ∧
    ((saveToHistory st ts).history.getD (saveToHistory st ts).historyIndex.toNat
      histDefault).annotations = st.annotations := by
  obtain ⟨hlen, hge, hle⟩ := h
  have hm : maxHistorySize = 50 := rfl
  rw [hm] at hlen
  simp only [saveToHistory]
  set entry : HistEntry := { annotations := st.annotations, timestamp := ts } with hentry
  set hist := (if st.historyIndex < (st.history.length : ℤ) - 1 then
      st.history.take (st.historyIndex + 1).toNat
    else st.history) with hhist
  have htrim : hist.length = (st.historyIndex + 1).toNat := by
    rw [hhist]
    split
    · next hc =>
        rw [List.length_take]
        omega
    · next hc =>
        omega
  have htle : hist.length ≤ st.history.length := by
    rw [hhist]
    split
    · rw [List.length_take]
      omega
    · exact le_rfl
  have hlen2 : (hist ++ [entry]).length = hist.length + 1 := by
    rw [List.length_append, List.length_singleton]
  by_cases hshift : (hist ++ [entry]).length > maxHistorySize
  · rw [if_pos hshift]
    have hnum : hist.length + 1 > 50 := by
      rw [← hlen2, ← hm]
      exact hshift
    have hposn : st.historyIndex.toNat + 1 = hist.length := by omega
    have hread : ((hist ++ [entry]).drop 1).getD st.historyIndex.toNat histDefault =
        entry := by
      rw [getD_drop_one, hposn, getD_append_last]
    refine ⟨⟨?_, ?_, ?_, ?_⟩, ?_, ?_⟩
    · show ((hist ++ [entry]).drop 1).length ≤ maxHistorySize
      rw [List.length_drop, hlen2, hm]
      omega
    · show (0 : ℤ) ≤ st.historyIndex
      omega
    · show st.historyIndex ≤ ((((hist ++ [entry]).drop 1).length : ℕ) : ℤ) - 1
      rw [List.length_drop, hlen2]
      omega
    · show st.annotations =
        (((hist ++ [entry]).drop 1).getD st.historyIndex.toNat histDefault).annotations
      rw [hread]
    · show st.historyIndex = ((((hist ++ [entry]).drop 1).length : ℕ) : ℤ) - 1
      rw [List.length_drop, hlen2]
      omega
    · show (((hist ++ [entry]).drop 1).getD st.historyIndex.toNat histDefault).annotations
        = st.annotations
      rw [hread]
  · rw [if_neg hshift]
    have hnum : hist.length + 1 ≤ 50 := by
      rw [← hlen2, ← hm]
      exact le_of_not_lt hshift
    have hposn : (st.historyIndex + 1).toNat = hist.length := htrim.symm
    have hread : (hist ++ [entry]).getD (st.historyIndex + 1).toNat histDefault =
        entry := by
      rw [hposn, getD_append_last]
    refine ⟨⟨?_, ?_, ?_, ?_⟩, ?_, ?_⟩
    · show (hist ++ [entry]).length ≤ maxHistorySize
      rw [hlen2, hm]
      omega
    · show (0 : ℤ) ≤ st.historyIndex + 1
      omega
    · show st.historyIndex + 1 ≤ (((hist ++ [entry]).length : ℕ) : ℤ) - 1
      rw [hlen2]
      omega
    · show st.annotations =
        ((hist ++ [entry]).getD (st.historyIndex + 1).toNat histDefault).annotations
      rw [hread]
    · show st.historyIndex + 1 = (((hist ++ [entry]).length : ℕ) : ℤ) - 1
      rw [hlen2]
      omega
    · show ((hist ++ [entry]).getD (st.historyIndex + 1).toNat histDefault).annotations
        = st.annotations
      rw [hread]

theorem undo_at_zero (st : EditorState) (h : st.historyIndex = 0) : undo st = st := by
  unfold undo
  rw [if_neg (by omega)]

theorem undo_inv (st : EditorState) (h : HistInv st) : HistInv (undo st) := by
  obtain ⟨hlen, hge, hle, hann⟩ := h
  unfold undo
  by_cases hpos : 0 < st.historyIndex
  · rw [if_pos hpos]
    refine ⟨hlen, ?_, ?_, rfl⟩
    · show (0 : ℤ) ≤ st.historyIndex - 1
      omega
    · show st.historyIndex - 1 ≤ (st.history.length : ℤ) - 1
      omega
  · rw [if_neg hpos]
    exact ⟨hlen, hge, hle, hann⟩

theorem redo_inv (st : EditorState) (h : HistInv st) : HistInv (redo st) := by
  obtain ⟨hlen, hge, hle, hann⟩ := h
  unfold redo
  by_cases hlt : st.historyIndex < (st.history.length : ℤ) - 1
  · rw [if_pos hlt]
    refine ⟨hlen, ?_, ?_, rfl⟩
    · show (0 : ℤ) ≤ st.historyIndex + 1
      omega
    · show st.historyIndex + 1 ≤ (st.history.length : ℤ) - 1
      omega
  · rw [if_neg hlt]
    exact ⟨hlen, hge, hle, hann⟩

theorem histPre_of_inv (st : EditorState) (h : HistInv st) : HistPre st :=
  ⟨h.1, by have := h.2.1; omega, h.2.2.1⟩

theorem runHistOps_inv (ops : List HistOp) (st : EditorState) (h : HistInv st) :
    HistInv (runHistOps st ops) := by
  induction ops generalizing st with
  | nil => exact h
  | cons op rest ih =>
      refine ih (applyHistOp st op) ?_
      cases op with
      | mutOp s ts =>
          exact (saveToHistory_spec { st with annotations := s } ts
            (histPre_of_inv st h)).1
      | undoOp => exact undo_inv st h
      | redoOp => exact redo_inv st h

theorem undoN_bottom (k : ℕ) (st : EditorState) (h : HistInv st)
    (hk : st.historyIndex.toNat = k) :
    undoN k st = { annotations := (st.history.getD 0 histDefault).annotations,
                   history := st.history, historyIndex := 0 } := by
  induction k generalizing st with
  | zero =>
      obtain ⟨hlen, hge, hle, hann⟩ := h
      have hidx0 : st.historyIndex = 0 := by omega
      obtain ⟨ann, hist, idx⟩ := st
      subst hidx0
      show EditorState.mk ann hist 0 = _
      simp only [EditorState.mk.injEq, and_true, true_and]
      simpa using hann
  | succ n ih =>
      have hpos : 0 < st.historyIndex := by omega
      have hstep : undo st = { st with historyIndex := st.historyIndex - 1, annotations := histRead st (st.historyIndex - 1) } := by
        unfold undo
        rw [if_pos hpos]
      have hidx2 : (undo st).historyIndex.toNat = n := by
        rw [hstep]
        show (st.historyIndex - 1).toNat = n
        omega
      show undoN n (undo st) = _
      rw [ih (undo st) (undo_inv st h) hidx2, hstep]

theorem undoN_reaches (n : ℕ) (st : EditorState) (h : HistInv st)
    (hn : st.historyIndex.toNat ≤ n) :
    undoN n st = { annotations := (st.history.getD 0 histDefault).annotations,
                   history := st.history, historyIndex := 0 } := by
  induction n generalizing st with
  | zero => exact undoN_bottom 0 st h (by omega)
  | succ n ih =>
      by_cases hk : st.historyIndex.toNat ≤ n
      · show undoN n (undo st) = _
        by_cases hpos : 0 < st.historyIndex
        · have hstep : undo st = { st with historyIndex := st.historyIndex - 1, annotations := histRead st (st.historyIndex - 1) } := by
            unfold undo
            rw [if_pos hpos]
          have hidx2 : (undo st).historyIndex.toNat ≤ n := by
            rw [hstep]
            show (st.historyIndex - 1).toNat ≤ n
            omega
          rw [ih (undo st) (undo_inv st h) hidx2, hstep]
        · have h0 : undo st = st := by
            unfold undo
            rw [if_neg hpos]
          rw [h0]
          exact ih st h hk
      · exact undoN_bottom (n + 1) st h (by omega)

/-- C3: from the post-initialization state, any interleaving of successful
mutations with undo/redo keeps `history.length <= 50` and the cursor in
`[0, history.length - 1]`; `undo()` at cursor 0 is a no-op; every save
leaves the cursor on the newest entry (also when the oldest entry was
evicted) whose snapshot is the just-saved store; and enough undos land
exactly on the oldest retained snapshot and stay there. -/
theorem C3_history_bounds (s0 : Store) (ts0 : String) (ops : List HistOp) :
    let st := runHistOps (saveToHistory (initEditor s0) ts0) ops
    st.history.length ≤ 50 ∧
    0 ≤ st.historyIndex ∧
    st.historyIndex ≤ (st.history.length : ℤ) - 1 ∧
    (st.historyIndex = 0 → undo st = st) ∧
    (∀ s ts,
      (saveToHistory { st with annotations := s } ts).historyIndex =
        ((saveToHistory { st with annotations := s } ts).history.length : ℤ) - 1 ∧
      ((saveToHistory { st with annotations := s } ts).history.getD
        (saveToHistory { st with annotations := s } ts).historyIndex.toNat
        histDefault).annotations = s) ∧
    (∀ n, st.historyIndex.toNat ≤ n →
      (undoN n st).historyIndex = 0 ∧
      (undoN n st).annotations = (st.history.getD 0 histDefault).annotations ∧
      undo (undoN n st) = undoN n st) := by
  intro st
  have hpre : HistPre (initEditor s0) := by
    refine ⟨?_, ?_, ?_⟩ <;> simp [initEditor, maxHistorySize]
  have hinv : HistInv st :=
    runHistOps_inv ops (saveToHistory (initEditor s0) ts0)
      (saveToHistory_spec (initEditor s0) ts0 hpre).1
  obtain ⟨hlen, hge, hle, hann⟩ := hinv
  refine ⟨hlen, hge, hle, ?_, ?_, ?_⟩
  · intro h0
    exact undo_at_zero st h0
  · intro s ts
    have hspec := saveToHistory_spec { st with annotations := s } ts
      (histPre_of_inv st ⟨hlen, hge, hle, hann⟩)
    exact ⟨hspec.2.1, hspec.2.2⟩
  · intro n hn
    have hbot := undoN_reaches n st ⟨hlen, hge, hle, hann⟩ hn
    refine ⟨by rw [hbot], by rw [hbot], ?_⟩
    rw [hbot]
    exact undo_at_zero _ rfl

/-! ## C9: zoom bounds -/

theorem zoomInvariant_step (v : ViewState) (op : ViewOp) (h : zoomInvariant v) :
    zoomInvariant (applyViewOp v op) := by
  obtain ⟨hlo, hhi⟩ := h
  have hmax : (1 : ℚ) / 10 ≤ maxZoom := by norm_num [maxZoom]
  cases op with
  | zin =>
      simp only [applyViewOp, zoomIn]
      split
      · exact ⟨le_min hmax (by linarith), min_le_left _ _⟩
      · exact ⟨hlo, hhi⟩
  | zout =>
      simp only [applyViewOp, zoomOut]
      split
      · refine ⟨le_max_left _ _, max_le hmax ?_⟩
        have : v.currentZoom / (3 / 2) ≤ v.currentZoom := by linarith
        linarith
      · exact ⟨hlo, hhi⟩
  | wheel d mx my =>
      simp only [applyViewOp, handleWheel]
      exact ⟨le_min hmax (le_max_left _ _), min_le_left _ _⟩
  | reset cw ch nw nh =>
      simp only [applyViewOp, resetView]
      constructor <;> norm_num [maxZoom]

theorem zoomInvariant_run (ops : List ViewOp) (v : ViewState) (h : zoomInvariant v) :
    zoomInvariant (runViewOps v ops) := by
  induction ops generalizing v with
  | nil => exact h
  | cons op rest ih => exact ih (applyViewOp v op) (zoomInvariant_step v op h)

/-- C9: from the initial view, any sequence of zoomIn, zoomOut, handleWheel
and resetView calls keeps `currentZoom` within `[0.1, 1000]`; in particular
it is never zero, so the divisions of `displayToImageCoords` (and of
`eventToImageCoords`, which computes the same formula) are well-defined
and the display/image round-trip holds at the current view. -/
theorem C9_zoom_bounds (ops : List ViewOp) :
    zoomInvariant (runViewOps initView ops) ∧
    (runViewOps initView ops).currentZoom ≠ 0 ∧
    (∀ p, displayToImageCoords (runViewOps initView ops).currentZoom
          (runViewOps initView ops).translateX (runViewOps initView ops).translateY
          (imageToDisplayCoords (runViewOps initView ops).currentZoom
            (runViewOps initView ops).translateX (runViewOps initView ops).translateY p)
        = p) ∧
    (∀ cx cy, eventToImageCoords (runViewOps initView ops).currentZoom
          (runViewOps initView ops).translateX (runViewOps initView ops).translateY cx cy
        = displayToImageCoords (runViewOps initView ops).currentZoom
            (runViewOps initView ops).translateX (runViewOps initView ops).translateY
            { x := cx, y := cy }) := by
  have hinv : zoomInvariant (runViewOps initView ops) :=
    zoomInvariant_run ops initView (by constructor <;> norm_num [initView, maxZoom])
  have hne : (runViewOps initView ops).currentZoom ≠ 0 := by
    have h1 := hinv.1
    intro h0
    rw [h0] at h1
    norm_num at h1
  exact ⟨hinv, hne, fun p => roundtrip_of_zoom_ne _ _ _ p hne, fun cx cy => rfl⟩

/-! ## C10: palette-index color assignment -/

theorem renderFrom_mem_of_get (nw nh : ℚ) (vis : List (String × Bool)) (anns : Store)
    (i j : ℕ) (name : String) (a : Annotation) (hj : anns.get? j = some (name, a))
    (hv : visLookup vis name ≠ some false) (hr : rendersNode nw nh a = true) :
    (name, COLORS.getD ((i + j) % COLORS.length) "") ∈ renderFrom nw nh vis i anns := by
  induction anns generalizing i j with
  | nil => simp at hj
  | cons hd tl ih =>
      obtain ⟨hname, ha⟩ := hd
      cases j with
      | zero =>
          obtain ⟨rfl, rfl⟩ : hname = name ∧ ha = a := by
            simpa using hj
          simp only [renderFrom, if_neg hv, Nat.add_zero, hr, if_pos]
          exact List.mem_cons_self _ _
      | succ j2 =>
          have hj2 : tl.get? j2 = some (name, a) := by simpa using hj
          have hmem := ih (i + 1) j2 hj2
          have harith : i + 1 + j2 = i + (j2 + 1) := by omega
          rw [harith] at hmem
          simp only [renderFrom]
          by_cases hv2 : visLookup vis hname = some false
          · rw [if_pos hv2]
            exact hmem
          · rw [if_neg hv2]
            by_cases hr2 : rendersNode nw nh ha = true
            · rw [if_pos hr2]
              exact List.mem_cons_of_mem _ hmem
            · rw [if_neg hr2]
              exact hmem

theorem renderFrom_sound (nw nh : ℚ) (vis : List (String × Bool)) (anns : Store)
    (i : ℕ) (pr : String × String) (hmem : pr ∈ renderFrom nw nh vis i anns) :
    ∃ j name a, anns.get? j = some (name, a) ∧ visLookup vis name ≠ some false ∧
      rendersNode nw nh a = true ∧
      pr = (name, COLORS.getD ((i + j) % COLORS.length) "") := by
  induction anns generalizing i with
  | nil => simp [renderFrom] at hmem
  | cons hd tl ih =>
      obtain ⟨hname, ha⟩ := hd
      simp only [renderFrom] at hmem
      by_cases hv2 : visLookup vis hname = some false
      · rw [if_pos hv2] at hmem
        obtain ⟨j, name, a, hj, hv, hr, hpr⟩ := ih (i + 1) hmem
        refine ⟨j + 1, name, a, by simpa using hj, hv, hr, ?_⟩
        rw [hpr]
        have harith : i + 1 + j = i + (j + 1) := by omega
        rw [harith]
      · rw [if_neg hv2] at hmem
        by_cases hr2 : rendersNode nw nh ha = true
        · rw [if_pos hr2] at hmem
          rcases List.mem_cons.mp hmem with hhd | htl
          · exact ⟨0, hname, ha, by simp, hv2, hr2, by simpa using hhd⟩
          · obtain ⟨j, name, a, hj, hv, hr, hpr⟩ := ih (i + 1) htl
            refine ⟨j + 1, name, a, by simpa using hj, hv, hr, ?_⟩
            rw [hpr]
            have harith : i + 1 + j = i + (j + 1) := by omega
            rw [harith]
        · rw [if_neg hr2] at hmem
          obtain ⟨j, name, a, hj, hv, hr, hpr⟩ := ih (i + 1) hmem
          refine ⟨j + 1, name, a, by simpa using hj, hv, hr, ?_⟩
          rw [hpr]
          have harith : i + 1 + j = i + (j + 1) := by omega
          rw [harith]

theorem renderFrom_filter_congr (nw nh : ℚ) (vis vis2 : List (String × Bool))
    (anns : Store) (i : ℕ) (lab : String)
    (hagree : ∀ n, n ≠ lab → visLookup vis n = visLookup vis2 n) :
    (renderFrom nw nh vis i anns).filter (fun pr => pr.1 ≠ lab) =
      (renderFrom nw nh vis2 i anns).filter (fun pr => pr.1 ≠ lab) := by
  induction anns generalizing i with
  | nil => rfl
  | cons hd tl ih =>
      obtain ⟨hname, ha⟩ := hd
      by_cases heq : hname = lab
      · subst heq
        have key : ∀ (vv : List (String × Bool)),
            (renderFrom nw nh vv i ((hname, ha) :: tl)).filter (fun pr => pr.1 ≠ hname) =
              (renderFrom nw nh vv (i + 1) tl).filter (fun pr => pr.1 ≠ hname) := by
          intro vv
          simp only [renderFrom]
          by_cases hv : visLookup vv hname = some false
          · rw [if_pos hv]
          · rw [if_neg hv]
            by_cases hr : rendersNode nw nh ha = true
            · rw [if_pos hr, List.filter_cons_of_neg (by simp)]
            · rw [if_neg hr]
        rw [key vis, key vis2, ih (i + 1)]
      · have hv12 : visLookup vis hname = visLookup vis2 hname := hagree hname heq
        simp only [renderFrom, ← hv12]
        by_cases hv1 : visLookup vis hname = some false
        · rw [if_pos hv1, if_pos hv1]
          exact ih (i + 1)
        · rw [if_neg hv1, if_neg hv1]
          by_cases hr : rendersNode nw nh ha = true
          · rw [if_pos hr, if_pos hr]
            rw [List.filter_cons_of_pos (by simpa using heq),
              List.filter_cons_of_pos (by simpa using heq)]
            rw [ih (i + 1)]
          · rw [if_neg hr, if_neg hr]
            exact ih (i + 1)

theorem renderFrom_ext (nw nh : ℚ) (vis vis2 : List (String × Bool)) (anns : Store)
    (i : ℕ) (hagree : ∀ n, visLookup vis n = visLookup vis2 n) :
    renderFrom nw nh vis i anns = renderFrom nw nh vis2 i anns := by
  induction anns generalizing i with
  | nil => rfl
  | cons hd tl ih =>
      obtain ⟨hname, ha⟩ := hd
      simp only [renderFrom, hagree hname]
      rw [ih (i + 1)]

/-- C10: every store entry consumes one palette index whether or not it is
rendered: a rendered label's color is `COLORS[i % 12]` with i its position
in the full store enumeration; toggling one label's visibility never
changes any other label's rendered (label, color) node; and restoring the
original visibility map restores the identical scene. -/
theorem C10_palette_assignment (nw nh : ℚ) (vis : List (String × Bool)) (anns : Store) :
    COLORS.length = 12 ∧
    (∀ j name a, anns.get? j = some (name, a) → visLookup vis name ≠ some false →
      rendersNode nw nh a = true →
      (name, COLORS.getD (j % COLORS.length) "") ∈ renderAnnotations nw nh vis anns) ∧
    (∀ pr, pr ∈ renderAnnotations nw nh vis anns →
      ∃ j name a, anns.get? j = some (name, a) ∧ visLookup vis name ≠ some false ∧
        rendersNode nw nh a = true ∧ pr = (name, COLORS.getD (j % COLORS.length) "")) ∧
    (∀ vis2 lab, (∀ n, n ≠ lab → visLookup vis n = visLookup vis2 n) →
      (renderAnnotations nw nh vis anns).filter (fun pr => pr.1 ≠ lab) =
        (renderAnnotations nw nh vis2 anns).filter (fun pr => pr.1 ≠ lab)) ∧
    (∀ vis2, (∀ n, visLookup vis n = visLookup vis2 n) →
      renderAnnotations nw nh vis anns = renderAnnotations nw nh vis2 anns) := by
  refine ⟨rfl, ?_, ?_, ?_, ?_⟩
  · intro j name a hj hv hr
    have hmem := renderFrom_mem_of_get nw nh vis anns 0 j name a hj hv hr
    simpa [renderAnnotations] using hmem
  · intro pr hpr
    have hs := renderFrom_sound nw nh vis anns 0 pr (by simpa [renderAnnotations] using hpr)
    simpa using hs
  · intro vis2 lab hagree
    exact renderFrom_filter_congr nw nh vis vis2 anns 0 lab hagree
  · intro vis2 hagree
    exact renderFrom_ext nw nh vis vis2 anns 0 hagree

end ImageAnnotator
